import Mathlib

/-!
Shallow embedding of the session/transport lifecycle manager of the
Haloscan MCP HTTP server (`src/build/http-server.js`), together with
theorems settling the behavioural claims about it.

The server keeps two pieces of process-wide mutable state
(http-server.js lines 81-83):

  const transports = {};        -- session id → SSE transport
  let activeConnections = 0;    -- counter of active sessions

Here the `transports` object is embedded as the list of its keys
(JavaScript object keys are unique strings); the transport value bound
to a key is determined by the key, so dispatch facts are stated in
terms of session ids.  `activeConnections` is a JavaScript number that
the code increments and decrements without a lower guard, so it is
embedded as `Int`.
-/

namespace HaloscanHttp

/-- The key set of a JavaScript object assignment `obj[id] = v`:
the key is added when absent, otherwise the key set is unchanged. -/
def insertKey (id : String) (ks : List String) : List String :=
  if ks.contains id then ks else id :: ks

/-- The process-wide registry state: the keys of the `transports`
object and the `activeConnections` counter (http-server.js lines 81-83). -/
structure RegState where
  transports : List String
  activeConnections : Int
deriving DecidableEq, Repr

/-- The state at process start: `transports = {}`, `activeConnections = 0`. -/
def initialState : RegState := { transports := [], activeConnections := 0 }

/-- Registry events: `register id` is the body of the accepted branch of
`app.get("/sse")` (lines 102-105: `transports[transport.sessionId] = transport;
activeConnections++`), and `unregister id` is the `res.on("close")` callback
(lines 109-115: `delete transports[transport.sessionId]; activeConnections--`). -/
inductive RegEvent where
  | register (id : String)
  | unregister (id : String)
deriving DecidableEq, Repr

/-- One registry event applied to the state, exactly as the source mutates
`transports` and `activeConnections`.  Note that the close handler deletes
from the map (a no-op when the key is absent, as for JavaScript `delete`)
but decrements the counter unconditionally. -/
def applyEvent (st : RegState) : RegEvent → RegState
  | .register id =>
      { transports := insertKey id st.transports,
        activeConnections := st.activeConnections + 1 }
  | .unregister id =>
      { transports := st.transports.erase id,
        activeConnections := st.activeConnections - 1 }

/-- Run a sequence of registry events from a state. -/
def runEvents (st : RegState) (es : List RegEvent) : RegState :=
  es.foldl applyEvent st

/-- The event sequences the HTTP server can actually produce: every
`register` carries a freshly generated session id (the SDK transport mints a
new UUID per connection, so the id is never already registered), and every
`unregister` comes from the single `close` event Node fires for an accepted,
still-registered stream (so its id is currently registered). -/
def wfTrace : RegState → List RegEvent → Bool
  | _, [] => true
  | st, .register id :: es =>
      !st.transports.contains id && wfTrace (applyEvent st (.register id)) es
  | st, .unregister id :: es =>
      st.transports.contains id && wfTrace (applyEvent st (.unregister id)) es

/-- Result of a request to the SSE endpoint. -/
inductive SseResult where
  | rejected (status : Nat) (error message : String)
  | accepted (sessionId : String)
deriving DecidableEq, Repr

/-- The `app.get("/sse")` handler (http-server.js lines 87-118).  If
`activeConnections >= MAX_CONNECTIONS` it sends a 503 JSON body and returns
before touching any state; otherwise it creates the transport (whose fresh
session id is the parameter `newId`), stores it in `transports`, and
increments `activeConnections`. -/
def sseHandler (maxConnections : Nat) (newId : String) (st : RegState) :
    SseResult × RegState :=
  if st.activeConnections ≥ (maxConnections : Int) then
    (.rejected 503 "Service Unavailable" "Maximum number of connections reached", st)
  else
    (.accepted newId, applyEvent st (.register newId))

/-- JavaScript falsiness of `req.query.sessionId` (a string or absent):
`!sessionId` is true when the parameter is absent or the empty string. -/
def jsFalsyStr : Option String → Bool
  | none => true
  | some s => s == ""

/-- Result of a request to the messages endpoint.  `thrownTypeError` is the
handler throwing synchronously (calling `handlePostMessage` on a value that
is not a transport); Express routes the exception to the global error
middleware of lines 328-335, which answers with the 500 body. -/
inductive MsgResult where
  | badRequest (error message : String)
  | notFound (error message : String)
  | forwarded (sessionId : String)
  | thrownTypeError
deriving DecidableEq, Repr

/-- Whether a `MsgResult` is the 404 session-not-found response. -/
def MsgResult.isNotFound : MsgResult → Bool
  | .notFound _ _ => true
  | _ => false

/-- The keys at which a property read on a plain JavaScript object literal
(`const transports = {}`) finds a truthy inherited value on the prototype
chain: the `Object.prototype` members visible in Node (all functions, hence
truthy) together with the `__proto__` accessor (which yields
`Object.prototype` itself, a truthy object). -/
def objectPrototypeKeys : List String :=
  ["constructor", "hasOwnProperty", "isPrototypeOf", "propertyIsEnumerable",
   "toLocaleString", "toString", "valueOf",
   "__defineGetter__", "__defineSetter__", "__lookupGetter__",
   "__lookupSetter__", "__proto__"]

/-- The `app.post("/messages")` handler (http-server.js lines 120-139):
`if (!sessionId)` → 400; otherwise `transports[sessionId]` is a JavaScript
property read on a plain object, which consults the prototype chain.  A
registered own key yields its transport (own properties shadow inherited
ones) and the payload is handed to it via `transport.handlePostMessage`.
An unregistered id naming an `Object.prototype` member yields that truthy
inherited value, so `if (transport)` passes and
`transport.handlePostMessage(req, res)` throws a `TypeError` (routed by
Express to the global error middleware of lines 328-335, which answers
500).  Any other id yields `undefined` and the 404 body is sent.  On every
path the handler returns the registry state unchanged: it never writes
`transports` or `activeConnections`. -/
def messagesHandler (sessionId : Option String) (st : RegState) :
    MsgResult × RegState :=
  if jsFalsyStr sessionId then
    (.badRequest "Bad Request" "sessionId query parameter is required", st)
  else
    match sessionId with
    | none => (.badRequest "Bad Request" "sessionId query parameter is required", st)
    | some sid =>
      if st.transports.contains sid then
        (.forwarded sid, st)
      else if objectPrototypeKeys.contains sid then
        (.thrownTypeError, st)
      else
        (.notFound "Not Found" "No active session found for the provided sessionId", st)

/-- Result of the authentication middleware: pass the request on (`next`),
or send a 401 or 403 JSON error body. -/
inductive AuthResult where
  | next
  | unauthorized (error message : String)
  | forbidden (error message : String)
deriving DecidableEq, Repr

/-- JavaScript `header.startsWith(pre)` on strings, via the character lists. -/
def jsStartsWith (s pre : String) : Bool :=
  pre.data.isPrefixOf s.data

/-- JavaScript `s.substring(n)` on strings: drop the first `n` characters. -/
def jsSubstringFrom (s : String) (n : Nat) : String :=
  ⟨s.data.drop n⟩

/-- The `authorizeRequest` middleware (http-server.js lines 21-48).
`authEnabled` is `AUTH_ENABLED === "true"`; `apiToken` is
`process.env.API_TOKEN` (`none` when the variable is unset, in which case the
strict-inequality check `token !== process.env.API_TOKEN` can never pass);
`authHeader` is `req.headers.authorization`. -/
def authorizeRequest (authEnabled : Bool) (apiToken : Option String)
    (authHeader : Option String) : AuthResult :=
  if !authEnabled then .next
  else
    match authHeader with
    | none =>
        .unauthorized "Unauthorized" "Authorization header with Bearer token required"
    | some h =>
      if !(jsStartsWith h "Bearer ") then
        .unauthorized "Unauthorized" "Authorization header with Bearer token required"
      else
        let token := jsSubstringFrom h 7
        if some token ≠ apiToken then
          .forbidden "Forbidden" "Invalid authorization token"
        else .next

/-- The mount paths of the authentication middleware:
`app.use(["/sse", "/messages"], authorizeRequest)` (http-server.js line 85). -/
def authMountPaths : List String := ["/sse", "/messages"]

/-- Whether `authorizeRequest` is applied to a request path. -/
def guardApplies (p : String) : Bool := authMountPaths.contains p

/-- Every route path registered on the Express app
(lines 87, 120, 141, 313, 324). -/
def endpointPaths : List String := ["/sse", "/messages", "/tools-info", "/health", "/"]

/-!
The tools-info endpoint inspects `server._registeredTools`, a JavaScript
object whose values come from the MCP SDK, so the tool data is embedded as
dynamically typed JavaScript values: `undef` (absent property), strings,
arrays and objects (an object is its field list; JavaScript object keys are
unique). -/

/-- A JavaScript value, as far as the tools-info handler inspects them. -/
inductive JVal where
  | undefined
  | jstr (s : String)
  | jarr (xs : List JVal)
  | jobj (fields : List (String × JVal))

/-- JavaScript truthiness (`!!v`, or `v` in an `if`) for the embedded values:
`undefined` and the empty string are falsy; arrays and objects (empty or not)
are truthy. -/
def truthy : JVal → Bool
  | .undefined => false
  | .jstr s => s != ""
  | .jarr _ => true
  | .jobj _ => true

/-- JavaScript `typeof v === "object"`: true for objects and arrays. -/
def typeofObject : JVal → Bool
  | .jobj _ => true
  | .jarr _ => true
  | _ => false

/-- JavaScript `typeof v === "string"`. -/
def typeofString : JVal → Bool
  | .jstr _ => true
  | _ => false

/-- JavaScript `Array.isArray(v)`. -/
def isArray : JVal → Bool
  | .jarr _ => true
  | _ => false

/-- Property access `v.k` on a value known not to be `undefined`:
a missing field, or access on a string or array, yields `undefined`. -/
def getField (v : JVal) (k : String) : JVal :=
  match v with
  | .jobj fs => (fs.lookup k).getD .undefined
  | _ => .undefined

/-- The body of the `Object.entries(toolsObj).map(([name, tool]) => ...)`
callback (http-server.js lines 176-203), for one `[name, tool]` entry.
Accessing `tool.parameters` on an `undefined` value throws a `TypeError`
(caught by the surrounding `try`), embedded as the `.error` case; on any
other value the callback builds
`{ name, description: tool.description || "",
   parameters: { properties, required } }`
where `properties` is `tool.parameters.shape` if truthy, else
`tool.parameters.properties` if truthy, else `{}`, and `required` is
`tool.parameters.required` when it is an array, else `[]`. -/
def normalizeTool (name : String) (tool : JVal) : Except Unit JVal :=
  match tool with
  | .undefined => .error ()
  | _ =>
    let params := getField tool "parameters"
    let properties :=
      if truthy params then
        let sh := getField params "shape"
        if truthy sh then sh
        else
          let pr := getField params "properties"
          if truthy pr then pr else .jobj []
      else .jobj []
    let required :=
      if truthy params then
        let r := getField params "required"
        if truthy r && isArray r then r else .jarr []
      else .jarr []
    let d := getField tool "description"
    .ok (.jobj [("name", .jstr name),
                ("description", if truthy d then d else .jstr ""),
                ("parameters", .jobj [("properties", properties),
                                      ("required", required)])])

/-- The per-tool predicate inside `hasValidData` (http-server.js lines
222-229): `!!tool.name && typeof tool.name === 'string' && hasParameters`
where `hasParameters = !!tool.parameters && typeof tool.parameters ===
'object'`. -/
def validTool (t : JVal) : Bool :=
  let p := getField t "parameters"
  let hasParameters := truthy p && typeofObject p
  truthy (getField t "name") && typeofString (getField t "name") && hasParameters

/-- The fixed fallback catalog `getHardcodedTools()`
(http-server.js lines 254-311). -/
def getHardcodedTools : List JVal :=
  [ .jobj [("name", .jstr "set_api_key"),
           ("description", .jstr "Définir la clé API."),
           ("parameters", .jobj
             [("properties", .jobj
                [("apiKey", .jobj [("type", .jstr "string"),
                                   ("description", .jstr "Your Haloscan API key")])]),
              ("required", .jarr [.jstr "apiKey"])])],
    .jobj [("name", .jstr "get_user_credit"),
           ("description", .jstr "Obtenir les informations de crédit de l\x27utilisateur."),
           ("parameters", .jobj
             [("properties", .jobj []),
              ("required", .jarr [])])],
    .jobj [("name", .jstr "get_keywords_overview"),
           ("description", .jstr "Obtenir un aperçu des mots-clés."),
           ("parameters", .jobj
             [("properties", .jobj
                [("keyword", .jobj [("type", .jstr "string"),
                                    ("description", .jstr "Seed keyword")]),
                 ("requested_data", .jobj
                   [("type", .jstr "array"),
                    ("items", .jobj [("type", .jstr "string")]),
                    ("description", .jstr "Specific data fields to request")])]),
              ("required", .jarr [.jstr "keyword", .jstr "requested_data"])])],
    .jobj [("name", .jstr "get_keywords_match"),
           ("description", .jstr "Obtenir la correspondance des mots-clés."),
           ("parameters", .jobj
             [("properties", .jobj
                [("keyword", .jobj [("type", .jstr "string"),
                                    ("description", .jstr "Seed keyword")])]),
              ("required", .jarr [.jstr "keyword"])])]]

/-- The `Object.entries(toolsObj).map(...)` call of the primary extraction
path (http-server.js line 176): each entry is normalized in order, and a
`TypeError` thrown by any callback invocation aborts the whole map. -/
def extractTools : List (String × JVal) → Except Unit (List JVal)
  | [] => .ok []
  | e :: es =>
    match normalizeTool e.1 e.2 with
    | .error u => .error u
    | .ok t =>
      match extractTools es with
      | .error u => .error u
      | .ok ts => .ok (t :: ts)

/-- The `tools` field of the `/tools-info` response (http-server.js lines
170-239).  `hasRegistry` is the truthiness-and-object check on
`server._registeredTools` (lines 173-175; when it fails, `registeredTools`
stays `[]`).  `entries` is `Object.entries(server._registeredTools)`.  The
`try`/`catch` turns a thrown extraction into `registeredTools = []`; an
empty list is replaced by the hardcoded catalog; a nonempty list failing
`hasValidData` is replaced by the hardcoded catalog; otherwise the
normalized list is used. -/
def toolsInfoTools (hasRegistry : Bool) (entries : List (String × JVal)) :
    List JVal :=
  let registeredTools : List JVal :=
    if hasRegistry then
      match extractTools entries with
      | .error _ => []
      | .ok ts => ts
    else []
  if registeredTools.length = 0 then getHardcodedTools
  else if registeredTools.all validTool then registeredTools
  else getHardcodedTools

/-- One entry of the response of the global error handler: the console line
and the JSON body. -/
structure ErrorResponse where
  status : Nat
  error : String
  message : String
deriving DecidableEq, Repr

/-- The global error handler middleware (http-server.js lines 328-335): it
logs `[timestamp] Server error:` with the error to the console and answers
with status 500 and a JSON body whose `message` is the error message in
development mode and a fixed generic string otherwise.  It is a total
function of the incoming error: it sends a response instead of letting the
exception escape, so the process keeps running. -/
def errorHandler (nodeEnv : String) (timestamp : String) (errMessage : String) :
    String × ErrorResponse :=
  ("[" ++ timestamp ++ "] Server error: " ++ errMessage,
   { status := 500,
     error := "Internal Server Error",
     message := if nodeEnv == "development" then errMessage
                else "An unexpected error occurred" })

/-! Helper lemmas about the registry operations. -/

lemma contains_insertKey_self (id : String) (ks : List String) :
    (insertKey id ks).contains id = true := by
  unfold insertKey
  split
  · assumption
  · simp [List.contains]

lemma length_insertKey_of_contains_eq_false (id : String) (ks : List String)
    (h : ks.contains id = false) : (insertKey id ks).length = ks.length + 1 := by
  unfold insertKey
  rw [h]
  simp

lemma mem_of_contains_eq_true {id : String} {ks : List String}
    (h : ks.contains id = true) : id ∈ ks := by
  simpa [List.contains] using h

lemma wfTrace_append_left (es₁ es₂ : List RegEvent) :
    ∀ st : RegState, wfTrace st (es₁ ++ es₂) = true → wfTrace st es₁ = true := by
  induction es₁ with
  | nil => intro st _; rfl
  | cons e es ih =>
    intro st h
    cases e with
    | register id =>
      simp only [List.cons_append, wfTrace, Bool.and_eq_true] at h ⊢
      exact ⟨h.1, ih _ h.2⟩
    | unregister id =>
      simp only [List.cons_append, wfTrace, Bool.and_eq_true] at h ⊢
      exact ⟨h.1, ih _ h.2⟩

lemma invariant_runEvents (es : List RegEvent) :
    ∀ st : RegState, st.activeConnections = (st.transports.length : Int) →
      wfTrace st es = true →
      (runEvents st es).activeConnections = ((runEvents st es).transports.length : Int) := by
  induction es with
  | nil => intro st h _; exact h
  | cons e es ih =>
    intro st h hwf
    cases e with
    | register id =>
      simp only [wfTrace, Bool.and_eq_true, Bool.not_eq_true'] at hwf
      refine ih _ ?_ hwf.2
      simp only [runEvents, applyEvent]
      rw [length_insertKey_of_contains_eq_false id st.transports hwf.1]
      push_cast
      omega
    | unregister id =>
      simp only [wfTrace, Bool.and_eq_true] at hwf
      refine ih _ ?_ hwf.2
      simp only [runEvents, applyEvent]
      have hm : id ∈ st.transports := mem_of_contains_eq_true hwf.1
      have hlen := List.length_erase_add_one hm
      omega

/-- C1: a streaming-connection attempt on the SSE endpoint is rejected with
the 503 `ServiceUnavailable` JSON body, leaving the transports map and the
active-connection count untouched and creating no session, exactly when the
active-connection count is at or above `MAX_CONNECTIONS`; below the limit
the attempt is accepted and the fresh session is registered (stored in the
map, count incremented).  When the count equals the limit, closing any one
existing session makes the next attempt succeed. -/
theorem sse_capacity_limit (maxConnections : Nat) (newId : String) (st : RegState) :
    (st.activeConnections ≥ (maxConnections : Int) →
      sseHandler maxConnections newId st =
        (.rejected 503 "Service Unavailable" "Maximum number of connections reached", st)) ∧
    (st.activeConnections < (maxConnections : Int) →
      (sseHandler maxConnections newId st).1 = .accepted newId ∧
      ((sseHandler maxConnections newId st).2.transports.contains newId = true ∧
       (sseHandler maxConnections newId st).2.activeConnections =
         st.activeConnections + 1)) ∧
    (st.activeConnections = (maxConnections : Int) →
      ∀ closedId : String, closedId ∈ st.transports →
        ∀ nextId : String,
          (sseHandler maxConnections nextId
            (applyEvent st (.unregister closedId))).1 = .accepted nextId) := by
  refine ⟨fun h => ?_, fun h => ?_, fun h closedId _ nextId => ?_⟩
  · simp [sseHandler, h]
  · have hn : ¬ st.activeConnections ≥ (maxConnections : Int) := not_le.mpr h
    refine ⟨?_, ?_, ?_⟩
    · simp [sseHandler, hn]
    · simp only [sseHandler, if_neg hn, applyEvent]
      exact contains_insertKey_self newId st.transports
    · simp [sseHandler, hn, applyEvent]
  · have hn : ¬ (applyEvent st (.unregister closedId)).activeConnections ≥
        (maxConnections : Int) := by
      simp only [applyEvent]
      omega
    simp [sseHandler, hn]

/-- C1 witness: with limit 1 and one active session, the next attempt is
rejected with the 503 body and no state change; after that session closes,
an attempt is accepted. -/
theorem sse_capacity_limit_witness :
    sseHandler 1 "b" { transports := ["a"], activeConnections := 1 } =
      (.rejected 503 "Service Unavailable" "Maximum number of connections reached",
       { transports := ["a"], activeConnections := 1 }) ∧
    (sseHandler 1 "b"
      (applyEvent { transports := ["a"], activeConnections := 1 }
        (.unregister "a"))).1 = .accepted "b" :=
  ⟨(sse_capacity_limit 1 "b" { transports := ["a"], activeConnections := 1 }).1
      (by decide),
   (sse_capacity_limit 1 "b" { transports := ["a"], activeConnections := 1 }).2.2
      (by decide) "a" (by decide) "b"⟩

/-- C2: along any event sequence the HTTP server can produce (each register
uses a fresh session id, each close fires once for a registered session),
after every operation the `activeConnections` counter equals the number of
entries in the `transports` map. -/
theorem registry_consistency (es₁ es₂ : List RegEvent)
    (h : wfTrace initialState (es₁ ++ es₂) = true) :
    (runEvents initialState es₁).activeConnections =
      ((runEvents initialState es₁).transports.length : Int) :=
  invariant_runEvents es₁ initialState (by simp [initialState])
    (wfTrace_append_left es₁ es₂ initialState h)

/-- C2 witness: the counter matches the map size at an intermediate point of
a concrete well-formed trace. -/
theorem registry_consistency_witness :
    wfTrace initialState
      ([.register "a", .register "b", .unregister "a"] ++ [.register "c"]) = true ∧
    (runEvents initialState [.register "a", .register "b", .unregister "a"]).activeConnections =
      ((runEvents initialState
          [.register "a", .register "b", .unregister "a"]).transports.length : Int) :=
  ⟨by decide,
   registry_consistency [.register "a", .register "b", .unregister "a"]
     [.register "c"] (by decide)⟩

/-- C3 counterexample: running the close-handler body a second time with the
same session id drives `activeConnections` below zero (to -1), because the
decrement is unconditional; so the unregister step as implemented is not
idempotent and does decrement the count below zero. -/
theorem unregister_not_idempotent_counterexample :
    (runEvents initialState
      [.register "a", .unregister "a", .unregister "a"]).activeConnections < 0 := by
  decide

/-- C3 amended: the unregister step is a total function (it never raises an
error), and deleting an absent id leaves the `transports` map unchanged; but
the counter is decremented unconditionally, so repeating the step with the
same id, or running it with a never-registered id, decrements
`activeConnections` again and can take it below zero. -/
theorem unregister_amended (st : RegState) (id : String) :
    (applyEvent st (.unregister id)).transports = st.transports.erase id ∧
    (st.transports.contains id = false →
      (applyEvent st (.unregister id)).transports = st.transports) ∧
    (applyEvent st (.unregister id)).activeConnections = st.activeConnections - 1 := by
  refine ⟨rfl, fun h => ?_, rfl⟩
  simp only [applyEvent]
  exact List.erase_of_not_mem (by simpa [List.contains] using h)

/-- C3 amended witness: unregistering the absent id "b" leaves the map
unchanged while still decrementing the counter. -/
theorem unregister_amended_witness :
    (applyEvent { transports := ["a"], activeConnections := 1 }
      (.unregister "b")).transports = ["a"] ∧
    (applyEvent { transports := ["a"], activeConnections := 1 }
      (.unregister "b")).activeConnections = 0 :=
  ⟨(unregister_amended { transports := ["a"], activeConnections := 1 } "b").2.1
      (by decide),
   by decide⟩

/-- C7: the messages handler mutates no registry state: for every request
(400, 404, forwarded, or the thrown `TypeError` on a prototype-chain hit),
the `transports` map and `activeConnections` counter it returns are exactly
the ones it was given. -/
theorem messages_no_mutation (q : Option String) (st : RegState) :
    (messagesHandler q st).2 = st := by
  unfold messagesHandler
  split
  · rfl
  · cases q with
    | none => rfl
    | some sid =>
      simp only []
      split
      · rfl
      · split <;> rfl

/-- C4 counterexample: two messages requests falsify the claim.  With a
present-but-empty `sessionId` — not a registered id — the claim demands the
404 `SessionNotFound` response, but `if (!sessionId)` treats the empty
string as absent and the handler answers 400 Bad Request.  With
`sessionId = "toString"` — also unregistered — the property read
`transports["toString"]` finds the truthy inherited
`Object.prototype.toString`, so `if (transport)` passes, the call to
`handlePostMessage` throws a `TypeError`, and the global error middleware
answers 500: again not the claimed 404. -/
theorem messages_dispatch_counterexample :
    ({ transports := ["a"], activeConnections := 1 } :
        RegState).transports.contains "" = false ∧
    (messagesHandler (some "")
        { transports := ["a"], activeConnections := 1 }).1.isNotFound = false ∧
    (messagesHandler (some "") { transports := ["a"], activeConnections := 1 }).1 =
      .badRequest "Bad Request" "sessionId query parameter is required" ∧
    ({ transports := ["a"], activeConnections := 1 } :
        RegState).transports.contains "toString" = false ∧
    (messagesHandler (some "toString")
        { transports := ["a"], activeConnections := 1 }).1.isNotFound = false ∧
    (messagesHandler (some "toString")
        { transports := ["a"], activeConnections := 1 }).1 = .thrownTypeError := by
  refine ⟨by decide, by decide, by decide, by decide, by decide, by decide⟩

/-- C4 amended: an absent or empty `sessionId` query parameter yields 400
Bad Request.  A present non-empty id that is neither registered nor the
name of an `Object.prototype` member — the case for every stale or
just-unregistered session id, which is a UUID — yields the 404
`SessionNotFound` response, and the payload is delivered to no session.  A
present non-empty unregistered id that does name an `Object.prototype`
member (such as "toString") passes the truthiness check on the inherited
value and the handler throws a `TypeError`, answered 500 by the global
error middleware — still delivered to no session.  A registered id (own
keys shadow the prototype chain) has the payload forwarded to exactly that
session's transport and no other. -/
theorem messages_dispatch (q : Option String) (st : RegState) :
    (jsFalsyStr q = true →
      (messagesHandler q st).1 =
        .badRequest "Bad Request" "sessionId query parameter is required") ∧
    (∀ sid : String, q = some sid → sid ≠ "" →
      st.transports.contains sid = false →
      objectPrototypeKeys.contains sid = false →
      (messagesHandler q st).1 =
        .notFound "Not Found" "No active session found for the provided sessionId") ∧
    (∀ sid : String, q = some sid → sid ≠ "" →
      st.transports.contains sid = false →
      objectPrototypeKeys.contains sid = true →
      (messagesHandler q st).1 = .thrownTypeError) ∧
    (∀ sid : String, q = some sid → sid ≠ "" →
      st.transports.contains sid = true →
      (messagesHandler q st).1 = .forwarded sid) ∧
    (∀ sid other : String, q = some sid →
      (messagesHandler q st).1 = .forwarded other →
      other = sid ∧ st.transports.contains other = true) := by
  refine ⟨fun h => ?_, fun sid hq hne hc hp => ?_, fun sid hq hne hc hp => ?_,
    fun sid hq hne hc => ?_, fun sid other hq hf => ?_⟩
  · simp [messagesHandler, h]
  · have hf : jsFalsyStr (some sid) = false := by
      simp [jsFalsyStr, hne]
    have hm : sid ∉ st.transports := by
      simpa [List.contains] using hc
    have hpm : sid ∉ objectPrototypeKeys := by
      simpa [List.contains] using hp
    simp [messagesHandler, hf, hq, hm, hpm]
  · have hf : jsFalsyStr (some sid) = false := by
      simp [jsFalsyStr, hne]
    have hm : sid ∉ st.transports := by
      simpa [List.contains] using hc
    have hpm : sid ∈ objectPrototypeKeys := mem_of_contains_eq_true hp
    simp [messagesHandler, hf, hq, hm, hpm]
  · have hf : jsFalsyStr (some sid) = false := by
      simp [jsFalsyStr, hne]
    have hm : sid ∈ st.transports := mem_of_contains_eq_true hc
    simp [messagesHandler, hf, hq, hm]
  · subst hq
    by_cases hfa : jsFalsyStr (some sid) = true
    · simp [messagesHandler, hfa] at hf
    · by_cases hm : sid ∈ st.transports
      · simp [messagesHandler, hfa, hm] at hf
        subst hf
        exact ⟨rfl, by simpa [List.contains] using hm⟩
      · by_cases hp : sid ∈ objectPrototypeKeys
        · simp [messagesHandler, hfa, hm, hp] at hf
        · simp [messagesHandler, hfa, hm, hp] at hf

/-- C4 amended witness: with session "a" registered, an empty id gets 400, a
stale id "b" gets 404, the unregistered prototype-chain id "toString" makes
the handler throw, and "a" is forwarded to session "a". -/
theorem messages_dispatch_witness :
    (messagesHandler (some "")
        { transports := ["a"], activeConnections := 1 }).1 =
      .badRequest "Bad Request" "sessionId query parameter is required" ∧
    (messagesHandler (some "b")
        { transports := ["a"], activeConnections := 1 }).1 =
      .notFound "Not Found" "No active session found for the provided sessionId" ∧
    (messagesHandler (some "toString")
        { transports := ["a"], activeConnections := 1 }).1 = .thrownTypeError ∧
    (messagesHandler (some "a")
        { transports := ["a"], activeConnections := 1 }).1 = .forwarded "a" :=
  ⟨(messages_dispatch (some "")
      { transports := ["a"], activeConnections := 1 }).1 (by decide),
   (messages_dispatch (some "b")
      { transports := ["a"], activeConnections := 1 }).2.1 "b" rfl
      (by decide) (by decide) (by decide),
   (messages_dispatch (some "toString")
      { transports := ["a"], activeConnections := 1 }).2.2.1 "toString" rfl
      (by decide) (by decide) (by decide),
   (messages_dispatch (some "a")
      { transports := ["a"], activeConnections := 1 }).2.2.2.1 "a" rfl
      (by decide) (by decide)⟩

/-- C5: with authentication disabled every request passes the guard with no
credential; with it enabled, no credential yields the 401 body, a bearer
credential differing from the configured secret yields the 403 body, and
the exact configured credential passes — and the guard is mounted on
exactly the `/sse` and `/messages` paths and no other. -/
theorem auth_gating (secret t : String) (tok : Option String) :
    (authorizeRequest false tok none = .next) ∧
    (authorizeRequest true tok none =
      .unauthorized "Unauthorized" "Authorization header with Bearer token required") ∧
    (t ≠ secret →
      authorizeRequest true (some secret) (some ("Bearer " ++ t)) =
        .forbidden "Forbidden" "Invalid authorization token") ∧
    (authorizeRequest true (some secret) (some ("Bearer " ++ secret)) = .next) ∧
    (∀ p : String, guardApplies p = true ↔ (p = "/sse" ∨ p = "/messages")) := by
  have hpre : ∀ s : String, jsStartsWith ("Bearer " ++ s) "Bearer " = true := by
    intro s
    simp [jsStartsWith, String.data_append, List.isPrefixOf_iff_prefix,
      List.prefix_append]
  have hdrop : ∀ s : String, jsSubstringFrom ("Bearer " ++ s) 7 = s := by
    intro s
    show String.mk (("Bearer " ++ s).data.drop 7) = s
    rw [String.data_append, List.drop_left' (by rfl)]
  refine ⟨rfl, rfl, fun hne => ?_, ?_, fun p => ?_⟩
  · simp [authorizeRequest, hpre t, hdrop t, hne]
  · simp [authorizeRequest, hpre secret, hdrop secret]
  · simp [guardApplies, authMountPaths, List.contains, or_comm]

/-- C5 witness: with secret "s3cret", the guard passes when disabled, 401s a
missing header, 403s a wrong bearer token, passes the right one, and is
mounted on `/sse` but not `/health`. -/
theorem auth_gating_witness :
    authorizeRequest false (some "s3cret") none = .next ∧
    authorizeRequest true (some "s3cret") none =
      .unauthorized "Unauthorized" "Authorization header with Bearer token required" ∧
    authorizeRequest true (some "s3cret") (some ("Bearer " ++ "wrong")) =
      .forbidden "Forbidden" "Invalid authorization token" ∧
    authorizeRequest true (some "s3cret") (some ("Bearer " ++ "s3cret")) = .next ∧
    guardApplies "/sse" = true ∧
    ¬ guardApplies "/health" = true :=
  ⟨(auth_gating "s3cret" "wrong" (some "s3cret")).1,
   (auth_gating "s3cret" "wrong" (some "s3cret")).2.1,
   (auth_gating "s3cret" "wrong" (some "s3cret")).2.2.1 (by decide),
   (auth_gating "s3cret" "wrong" (some "s3cret")).2.2.2.1,
   ((auth_gating "s3cret" "wrong" (some "s3cret")).2.2.2.2 "/sse").mpr
     (Or.inl rfl),
   fun h =>
     by simpa using ((auth_gating "s3cret" "wrong"
       (some "s3cret")).2.2.2.2 "/health").mp h⟩

/-- C9: with authentication enabled, an Authorization header that does not
start with the literal prefix "Bearer " (for example a Basic-scheme
credential) is answered with the same 401 Unauthorized body as an absent
header — never with 403. -/
theorem non_bearer_header_unauthorized (tok : Option String) (header : String)
    (h : jsStartsWith header "Bearer " = false) :
    authorizeRequest true tok (some header) =
      .unauthorized "Unauthorized" "Authorization header with Bearer token required" ∧
    authorizeRequest true tok (some header) = authorizeRequest true tok none := by
  constructor <;> simp [authorizeRequest, h]

/-- C9 witness: a Basic-scheme credential is answered 401. -/
theorem non_bearer_header_unauthorized_witness :
    authorizeRequest true (some "s3cret") (some "Basic dXNlcjpwdw==") =
      .unauthorized "Unauthorized" "Authorization header with Bearer token required" :=
  (non_bearer_header_unauthorized (some "s3cret") "Basic dXNlcjpwdw=="
    (by decide)).1

/-- C6: the `tools` field of the introspection response equals the fixed
hardcoded fallback catalog whenever the primary extraction path is
unavailable, throws, yields zero entries, or yields an entry failing the
`hasValidData` validation; otherwise it equals the normalized primary
list exactly. -/
theorem tools_catalog_fallback (entries : List (String × JVal)) :
    (toolsInfoTools false entries = getHardcodedTools) ∧
    (extractTools entries = .error () →
      toolsInfoTools true entries = getHardcodedTools) ∧
    (∀ ts : List JVal, extractTools entries = .ok ts →
      ts = [] → toolsInfoTools true entries = getHardcodedTools) ∧
    (∀ ts : List JVal, extractTools entries = .ok ts →
      ts.all validTool = false → toolsInfoTools true entries = getHardcodedTools) ∧
    (∀ ts : List JVal, extractTools entries = .ok ts →
      ts ≠ [] → ts.all validTool = true → toolsInfoTools true entries = ts) := by
  refine ⟨?_, fun h => ?_, fun ts h hnil => ?_, fun ts h hall => ?_,
    fun ts h hne hall => ?_⟩
  · rfl
  · simp [toolsInfoTools, h]
  · subst hnil
    simp [toolsInfoTools, h]
  · cases ts with
    | nil => simp at hall
    | cons t ts' => simp [toolsInfoTools, h, hall]
  · cases ts with
    | nil => exact absurd rfl hne
    | cons t ts' => simp [toolsInfoTools, h, hall]

/-- C6 witness: a registry with one well-shaped tool entry is served as its
normalized form, not the fallback catalog. -/
theorem tools_catalog_fallback_witness :
    toolsInfoTools true [("set_api_key", .jobj [])] =
      [.jobj [("name", .jstr "set_api_key"),
              ("description", .jstr ""),
              ("parameters", .jobj [("properties", .jobj []),
                                    ("required", .jarr [])])]] :=
  (tools_catalog_fallback [("set_api_key", .jobj [])]).2.2.2.2
    [.jobj [("name", .jstr "set_api_key"),
            ("description", .jstr ""),
            ("parameters", .jobj [("properties", .jobj []),
                                  ("required", .jarr [])])]]
    rfl (List.cons_ne_nil _ _) rfl

/-- C10: every entry the normalization produces carries a `parameters` field
that is a truthy, object-typed `{properties, required}` object by
construction, so the `hasParameters` half of `hasValidData` cannot fail on
it; the validation rejects a normalized entry exactly when its name is the
empty string (entry names come from `Object.entries` keys, hence are always
strings). -/
theorem normalized_tool_parameters_always_object (name : String) (tool r : JVal)
    (h : normalizeTool name tool = .ok r) :
    (truthy (getField r "parameters") = true ∧
     typeofObject (getField r "parameters") = true) ∧
    (validTool r = false ↔ name = "") := by
  cases tool with
  | undefined => exact absurd h (by simp [normalizeTool])
  | jstr s =>
    simp only [normalizeTool, Except.ok.injEq] at h
    subst h
    constructor
    · exact ⟨rfl, rfl⟩
    · simp [validTool, getField, truthy, typeofString, typeofObject,
        List.lookup, not_not]
  | jarr xs =>
    simp only [normalizeTool, Except.ok.injEq] at h
    subst h
    constructor
    · exact ⟨rfl, rfl⟩
    · simp [validTool, getField, truthy, typeofString, typeofObject,
        List.lookup, not_not]
  | jobj fs =>
    simp only [normalizeTool, Except.ok.injEq] at h
    subst h
    constructor
    · exact ⟨rfl, rfl⟩
    · simp [validTool, getField, truthy, typeofString, typeofObject,
        List.lookup, not_not]

/-- C10 witness: normalizing a shapeless tool object yields an entry whose
parameters field passes the object check, and whose validity reduces to its
name being non-empty. -/
theorem normalized_tool_parameters_always_object_witness :
    truthy (getField
      (.jobj [("name", .jstr "set_api_key"),
              ("description", .jstr ""),
              ("parameters", .jobj [("properties", .jobj []),
                                    ("required", .jarr [])])])
      "parameters") = true ∧
    validTool
      (.jobj [("name", .jstr "set_api_key"),
              ("description", .jstr ""),
              ("parameters", .jobj [("properties", .jobj []),
                                    ("required", .jarr [])])]) = true :=
  ⟨(normalized_tool_parameters_always_object "set_api_key" (.jobj [])
      (.jobj [("name", .jstr "set_api_key"),
              ("description", .jstr ""),
              ("parameters", .jobj [("properties", .jobj []),
                                    ("required", .jarr [])])]) rfl).1.1,
   by rfl⟩

/-- C8: every error reaching the global handler is logged with the request
timestamp and answered with a 500-status JSON body whose `message` is the
underlying error's message in development mode and the fixed generic string
in any other mode; the handler is a total function of the error, so the
exception never escapes to crash the process. -/
theorem global_error_handler (nodeEnv timestamp errMessage : String) :
    (errorHandler nodeEnv timestamp errMessage).2.status = 500 ∧
    (errorHandler nodeEnv timestamp errMessage).2.error = "Internal Server Error" ∧
    (nodeEnv = "development" →
      (errorHandler nodeEnv timestamp errMessage).2.message = errMessage) ∧
    (nodeEnv ≠ "development" →
      (errorHandler nodeEnv timestamp errMessage).2.message =
        "An unexpected error occurred") ∧
    (errorHandler nodeEnv timestamp errMessage).1 =
      "[" ++ timestamp ++ "] Server error: " ++ errMessage := by
  refine ⟨rfl, rfl, fun h => ?_, fun h => ?_, rfl⟩
  · simp [errorHandler, h]
  · simp [errorHandler, h]

/-- C8 witness: in development mode the 500 body carries the underlying
error message. -/
theorem global_error_handler_witness :
    (errorHandler "development" "2024-01-01T00:00:00.000Z" "boom").2.status = 500 ∧
    (errorHandler "development" "2024-01-01T00:00:00.000Z" "boom").2.message = "boom" :=
  ⟨(global_error_handler "development" "2024-01-01T00:00:00.000Z" "boom").1,
   (global_error_handler "development" "2024-01-01T00:00:00.000Z" "boom").2.2.1 rfl⟩

end HaloscanHttp
